import Mathlib

/-!
Shallow embedding of the YT-music render pipeline core.

Embedded source files:
- src/providers/ffmpeg_renderer.py  (FFmpegRenderer.render_video and helpers)
- src/services/video_pipeline.py    (VideoPipelineService.execute_pipeline, step 4)
- src/workers/video_job_worker.py   (VideoJobWorker polling, retry classification)
- src/api/audio_tracks.py, src/api/images.py (select endpoints)
- src/models/video_job.py, audio_track.py, image.py (status enum, row shapes)

Real numbers from the Python code (float durations, progress fractions) are
modelled as rationals.  Filesystem and subprocess effects are modelled as an
explicit event trace; the outcomes of the two external ffmpeg invocations and
the parsed progress timestamps from the mux process's diagnostic output are
oracle parameters.
-/

/-- Python's `min(a, b)` on rationals. -/
def pyMin (a b : ℚ) : ℚ := if a ≤ b then a else b

/-- Encoder configuration of `FFmpegRenderer.__init__`. -/
structure FFmpegRenderer where
  video_bitrate : String
  audio_bitrate : String
  video_codec : String
  audio_codec : String
  preset : String
  crf : ℕ

/-- The default constructor arguments of `FFmpegRenderer`. -/
def defaultRenderer : FFmpegRenderer :=
  { video_bitrate := "8000k", audio_bitrate := "192k", video_codec := "libx264",
    audio_codec := "aac", preset := "medium", crf := 23 }

/-- One entry of the `audio_tracks` argument of `render_video`
(dict with `file_path`, `duration_seconds`, `order_index`). -/
structure AudioTrackIn where
  file_path : String
  duration_seconds : ℚ
  order_index : ℕ
deriving DecidableEq

/-- One entry of the `visuals` argument of `render_video`
(dict with `file_path`, `order_index`). -/
structure VisualIn where
  file_path : String
  order_index : ℕ
deriving DecidableEq

/-- Name standing for the `tempfile.mktemp(suffix=".wav")` intermediate audio path. -/
def tempAudioPath : String := "tmp_audio.wav"

/-- Name standing for the `tempfile.mktemp(suffix=".txt")` concat-description path. -/
def tempConcatPath : String := "tmp_concat.txt"

/-- Python sorted(audio_tracks, key=order_index) — the sort is stable,
modelled by the stable insertion sort. -/
def sortTracks (l : List AudioTrackIn) : List AudioTrackIn :=
  List.insertionSort (fun a b => a.order_index ≤ b.order_index) l

/-- Python sorted(visuals, key=order_index). -/
def sortVisuals (l : List VisualIn) : List VisualIn :=
  List.insertionSort (fun a b => a.order_index ≤ b.order_index) l

/-- The `-i` input argument pairs built in `_concatenate_audio_with_crossfades`. -/
def audioInputArgs (tracks : List AudioTrackIn) : List String :=
  (tracks.map (fun t => ["-i", t.file_path])).flatten

/-- The `acrossfade` filter chain parts built for `i in range(1, len(audio_tracks))`:
part `i` crossfades the running label with input `i` over `crossfade_duration`
with triangular curves on both inputs. -/
def crossfadeFilterParts (cf : ℚ) (n : ℕ) : List String :=
  (List.range (n - 1)).map (fun k =>
    let i := k + 1
    let cur := if k = 0 then "0:a" else "a" ++ toString (i - 2) ++ toString (i - 1)
    "[" ++ cur ++ "][" ++ toString i ++ ":a]acrossfade=d=" ++ toString cf ++
      ":c1=tri:c2=tri[a" ++ toString (i - 1) ++ toString i ++ "]")

/-- The label mapped out of the filter graph (`current_label` after the loop). -/
def finalAudioLabel (n : ℕ) : String :=
  if n ≤ 1 then "0:a" else "a" ++ toString (n - 2) ++ toString (n - 1)

/-- The ffmpeg command issued by `_concatenate_audio_with_crossfades`: a plain
transcode for a single track (no crossfade), a `-filter_complex` crossfade
chain otherwise. -/
def concatAudioCmd (tracks : List AudioTrackIn) (cf : ℚ) : List String :=
  match tracks with
  | [t] => ["ffmpeg", "-y", "-i", t.file_path, "-c:a", "pcm_s16le", tempAudioPath]
  | _ =>
    ["ffmpeg", "-y"] ++ audioInputArgs tracks ++
      ["-filter_complex", String.intercalate ";" (crossfadeFilterParts cf tracks.length),
       "-map", "[" ++ finalAudioLabel tracks.length ++ "]",
       "-c:a", "pcm_s16le", tempAudioPath]

/-- One entry of `visual_timings` in `_create_video_with_visuals`. -/
structure VisualTiming where
  visual_path : String
  start_time : ℚ
  duration : ℚ
  order_index : ℕ
deriving DecidableEq

/-- The timing loop of `_create_video_with_visuals`: for index `i > 0` the
cursor first steps back by the crossfade, then each visual is placed at the
cursor with its paired track's full duration. -/
def visualTimingsGo (cf : ℚ) (i : ℕ) (cur : ℚ) :
    List (AudioTrackIn × VisualIn) → List VisualTiming
  | [] => []
  | (t, v) :: rest =>
    let cur1 := if 0 < i then cur - cf else cur
    { visual_path := v.file_path, start_time := cur1,
      duration := t.duration_seconds, order_index := v.order_index }
      :: visualTimingsGo cf (i + 1) (cur1 + t.duration_seconds) rest

/-- The `visual_timings` list for paired (already sorted) tracks and visuals. -/
def visualTimings (tracks : List AudioTrackIn) (visuals : List VisualIn)
    (cf : ℚ) : List VisualTiming :=
  visualTimingsGo cf 0 0 (tracks.zip visuals)

/-- Value of `current_time` after the timing loop (same cursor recursion as
`visualTimingsGo`, returning the final cursor value). -/
def finalCursorGo (cf : ℚ) (i : ℕ) (cur : ℚ) : List ℚ → ℚ
  | [] => cur
  | d :: rest => finalCursorGo cf (i + 1) ((if 0 < i then cur - cf else cur) + d) rest

/-- The value `total_duration = current_time - crossfade_duration * (N - 1)`
as computed in `_create_video_with_visuals` (line 267). -/
def totalDurationOf (durs : List ℚ) (cf : ℚ) : ℚ :=
  finalCursorGo cf 0 0 durs - cf * ((durs.length - 1 : ℕ) : ℚ)

/-- The concat-demuxer description written by `_create_visual_concat_file`:
a `file`/`duration` pair per timing, and the last image repeated once with no
duration.  (The source writes absolute paths; paths are kept abstract.) -/
def concatFileContent (timings : List VisualTiming) : String :=
  String.join (timings.map (fun tm =>
    "file \x27" ++ tm.visual_path ++ "\x27\n" ++ "duration " ++ toString tm.duration ++ "\n"))
  ++ (match timings.getLast? with
      | some tm => "file \x27" ++ tm.visual_path ++ "\x27\n"
      | none => "")

/-- The mux command of `_create_video_with_visuals` (concat demuxer + audio
intermediate, H.264/AAC, yuv420p, `-shortest`, faststart). -/
def muxCmd (r : FFmpegRenderer) (concatFile audioFile outPath : String) : List String :=
  ["ffmpeg", "-y", "-f", "concat", "-safe", "0", "-i", concatFile, "-i", audioFile,
   "-c:v", r.video_codec, "-preset", r.preset, "-crf", toString r.crf,
   "-b:v", r.video_bitrate, "-c:a", r.audio_codec, "-b:a", r.audio_bitrate,
   "-pix_fmt", "yuv420p", "-shortest", "-movflags", "+faststart", outPath]

/-- Progress derived from one parsed `time=` stderr value during the mux:
`progress = 0.3 + (current_seconds / total_duration) * 0.7` then
`progress = min(progress, 1.0)`. -/
def muxProgressValue (total t : ℚ) : ℚ :=
  pyMin ((3 : ℚ) / 10 + t / total * ((7 : ℚ) / 10)) 1

/-- Filesystem / subprocess effects performed by `render_video`. -/
inductive FsEvent where
  | mkdirParent (path : String)
  | runProcess (cmd : List String)
  | writeFile (path : String) (content : String)
  | statFile (path : String)
  | unlink (path : String)
deriving DecidableEq

/-- The dict returned by `render_video` (fields the pipeline consumes;
`file_size_mb` and the metadata dict carry no specified behaviour). -/
structure RenderResult where
  output_path : String
  duration_seconds : ℚ
  resolution : String
deriving DecidableEq

/-- Observable outcome of one `render_video` call: the ordered effect trace,
the ordered progress-callback values, and the returned value or raised error. -/
structure RenderOutcome where
  events : List FsEvent
  progress : List ℚ
  result : Except String RenderResult

/-- Embedding of `FFmpegRenderer.render_video`.  `audioOk` is the oracle for the exit of the
audio-concat subprocess (`check=True`), `muxOk` for the mux process's return
code, and `muxTimes` the `time=` values successfully parsed from its stderr
(each parsed value triggers one progress callback).  An exception propagating
out is an `Except.error`; effects already performed stay in the trace. -/
def render_video (r : FFmpegRenderer) (audio_tracks : List AudioTrackIn)
    (visuals : List VisualIn) (output_path : String) (crossfade_duration : ℚ)
    (audioOk : Bool) (muxOk : Bool) (muxTimes : List ℚ) : RenderOutcome :=
  if audio_tracks.length ≠ visuals.length then
    { events := [], progress := [],
      result := Except.error "Audio tracks and visuals must have the same count" }
  else if audio_tracks.length < 1 then
    { events := [], progress := [],
      result := Except.error "Must have at least 1 audio track and 1 visual" }
  else
    let sortedTracks := sortTracks audio_tracks
    let sortedVisuals := sortVisuals visuals
    let audioCmd := concatAudioCmd sortedTracks crossfade_duration
    let ev1 := [FsEvent.mkdirParent output_path, FsEvent.runProcess audioCmd]
    if audioOk = false then
      -- CalledProcessError from the concat subprocess propagates: no cleanup.
      { events := ev1, progress := [1 / 10],
        result := Except.error "audio concatenation failed" }
    else
      let total := totalDurationOf (sortedTracks.map (fun t => t.duration_seconds))
        crossfade_duration
      let content := concatFileContent
        (visualTimings sortedTracks sortedVisuals crossfade_duration)
      let mux := muxCmd r tempConcatPath tempAudioPath output_path
      let muxProg := muxTimes.map (fun t => muxProgressValue total t)
      let ev2 := ev1 ++ [FsEvent.writeFile tempConcatPath content, FsEvent.runProcess mux]
      if muxOk = false then
        -- RuntimeError after the finally-block: only the concat file is removed.
        { events := ev2 ++ [FsEvent.unlink tempConcatPath],
          progress := [1 / 10, 3 / 10] ++ muxProg,
          result := Except.error "FFmpeg rendering failed" }
      else
        let res : RenderResult :=
          { output_path := output_path, duration_seconds := total, resolution := "1920x1080" }
        { events := ev2 ++ [FsEvent.unlink tempConcatPath, FsEvent.statFile output_path,
            FsEvent.unlink tempAudioPath],
          progress := ([1 / 10, 3 / 10] ++ muxProg) ++ [1],
          result := Except.ok res }

/-- Status enum `VideoJobStatus` from src/models/video_job.py. -/
inductive VideoJobStatus where
  | planned
  | generating_music
  | generating_image
  | rendering
  | ready_for_export
  | completed
  | failed
  | cancelled
deriving DecidableEq

/-- The job fields the worker's retry logic reads and writes. -/
structure Job where
  status : VideoJobStatus
  error_message : Option String
deriving DecidableEq

/-- The exception handler of `execute_pipeline` (lines 104-108): the job is
marked failed and the error text recorded. -/
def pipeline_fail (j : Job) (msg : String) : Job :=
  { j with status := VideoJobStatus.failed, error_message := some msg }

/-- One `if job.status == target: step` block of `execute_pipeline`; a step
that runs (successfully) moves the status to `next` and counts one executed
stage. -/
def pipelineStep (target next : VideoJobStatus) :
    VideoJobStatus × ℕ → VideoJobStatus × ℕ :=
  fun p => if p.1 = target then (next, p.2 + 1) else p

/-- The sequential step dispatch of `execute_pipeline` (lines 78-91) on the
success path: each `if` re-reads the status just written by the previous step,
so the stages chain through in a single call.  Returns the final status and
the number of stage handlers executed. -/
def execute_pipeline_run (s0 : VideoJobStatus) : VideoJobStatus × ℕ :=
  pipelineStep VideoJobStatus.ready_for_export VideoJobStatus.completed
    (pipelineStep VideoJobStatus.rendering VideoJobStatus.ready_for_export
      (pipelineStep VideoJobStatus.generating_image VideoJobStatus.rendering
        (pipelineStep VideoJobStatus.generating_music VideoJobStatus.generating_image
          (pipelineStep VideoJobStatus.planned VideoJobStatus.generating_music (s0, 0)))))

/-- Which numbered step handler `execute_pipeline` would run first for a job
in the given status (none for terminal statuses). -/
def firstStepFor : VideoJobStatus → Option ℕ
  | VideoJobStatus.planned => some 1
  | VideoJobStatus.generating_music => some 2
  | VideoJobStatus.generating_image => some 3
  | VideoJobStatus.rendering => some 4
  | VideoJobStatus.ready_for_export => some 5
  | _ => none

/-- The job fields `_process_pending_jobs` queries on. -/
structure DBJob where
  id : ℕ
  created_at : ℕ
  status : VideoJobStatus
deriving DecidableEq

/-- The worker's poll query (lines 115-120): jobs whose status equals
`PLANNED`, ordered by `created_at` ascending.  The SQL sort is modelled by a
stable sort of the table rows. -/
def process_pending_query (jobs : List DBJob) : List DBJob :=
  List.insertionSort (fun a b => a.created_at ≤ b.created_at)
    (jobs.filter (fun j => j.status = VideoJobStatus.planned))

/-- The `transient_errors` marker list of `_should_retry_job`. -/
def transient_error_markers : List String :=
  ["timeout", "connection", "network", "rate limit", "503", "502", "504"]

/-- Character-list matcher: does `pat` occur at the head of `s`? -/
def charsLead : List Char → List Char → Bool
  | [], _ => true
  | _ :: _, [] => false
  | p :: ps, c :: cs => p == c && charsLead ps cs

/-- Character-list matcher: does `pat` occur anywhere in `s`? -/
def charsHas (pat : List Char) : List Char → Bool
  | [] => charsLead pat []
  | c :: cs => charsLead pat (c :: cs) || charsHas pat cs

/-- Python's `pat in s` substring test. -/
def strHas (s pat : String) : Bool := charsHas pat.toList s.toList

/-- Python's `str.lower()` (per-character lowering). -/
def pyLower (s : String) : String := String.mk (s.toList.map Char.toLower)

/-- Embedding of `VideoJobWorker._should_retry_job`: only a `FAILED` job whose lowered
error message contains a transient marker is retried. -/
def should_retry_job (j : Job) : Bool :=
  match j.status with
  | VideoJobStatus.failed =>
    let error_msg := pyLower (j.error_message.getD "")
    transient_error_markers.any (fun e => strHas error_msg e)
  | _ => false

/-- Embedding of `VideoJobWorker._schedule_retry`: reset the job to `PLANNED` and clear the
error message. -/
def schedule_retry (j : Job) : Job :=
  { j with status := VideoJobStatus.planned, error_message := none }

/-- The worker's default `max_retries` (constructor default / env default). -/
def worker_default_max_retries : ℕ := 3

/-- One `_execute_job` failure cycle: the pipeline marks the job failed with
`msg`; the worker then retries (resets) it iff `_should_retry_job` says so.
Returns the job afterwards and whether a retry reset was performed. -/
def retry_cycle (msg : String) (j : Job) : Job × Bool :=
  let jf := pipeline_fail j msg
  if should_retry_job jf then (schedule_retry jf, true) else (jf, false)

/-- Simulation of `n` consecutive poll cycles in which every pipeline attempt fails with
`msg`, starting from a fresh planned job; counts performed retry resets. -/
def retrySim (msg : String) : ℕ → Job × ℕ
  | 0 => ({ status := VideoJobStatus.planned, error_message := none }, 0)
  | n + 1 =>
    let p := retrySim msg n
    let q := retry_cycle msg p.1
    (q.1, if q.2 then p.2 + 1 else p.2)

/-- Number of automatic retry resets performed across `n` failing cycles. -/
def retries_after (msg : String) (n : ℕ) : ℕ := (retrySim msg n).2

/-- The audio_tracks row fields read by the select endpoint and step 4. -/
structure AudioTrackRow where
  id : ℕ
  video_job_id : ℕ
  order_index : ℕ
  is_selected : Bool
  is_alternative : Bool
deriving DecidableEq

/-- The images row fields read by the select endpoint and step 4. -/
structure ImageRow where
  id : ℕ
  video_job_id : ℕ
  order_index : ℕ
  is_selected : Bool
  is_alternative : Bool
deriving DecidableEq

/-- Per-row effect of `select_audio_track` given the row being selected: every
row sharing the target's job and position is deselected except the target,
which is selected; other rows are untouched. -/
def applySelection (target t : AudioTrackRow) : AudioTrackRow :=
  if t.video_job_id = target.video_job_id ∧ t.order_index = target.order_index then
    (if t.id = target.id then { t with is_selected := true }
     else { t with is_selected := false })
  else t

/-- Endpoint select_audio_track (src/api/audio_tracks.py lines 78-113):
look up the track by id (404 → `none`), deselect all other tracks at the same
job+position, select the chosen one. -/
def select_audio_track (track_id : ℕ) (table : List AudioTrackRow) :
    Option (List AudioTrackRow) :=
  match table.find? (fun t => t.id == track_id) with
  | none => none
  | some target => some (table.map (applySelection target))

/-- Per-row effect of `select_image`, symmetric to `applySelection`. -/
def applyImageSelection (target t : ImageRow) : ImageRow :=
  if t.video_job_id = target.video_job_id ∧ t.order_index = target.order_index then
    (if t.id = target.id then { t with is_selected := true }
     else { t with is_selected := false })
  else t

/-- Endpoint select_image (src/api/images.py lines 73-108). -/
def select_image (image_id : ℕ) (table : List ImageRow) : Option (List ImageRow) :=
  match table.find? (fun t => t.id == image_id) with
  | none => none
  | some target => some (table.map (applyImageSelection target))

/-- Two audio rows violate single selection: same job, same position, both
selected. -/
def audioClash (a b : AudioTrackRow) : Prop :=
  a.video_job_id = b.video_job_id ∧ a.order_index = b.order_index ∧
    a.is_selected = true ∧ b.is_selected = true

/-- The per-position single-selection invariant for audio rows. -/
def audioSingleSelection (table : List AudioTrackRow) : Prop :=
  List.Pairwise (fun a b => ¬ audioClash a b) table

/-- Two image rows violate single selection. -/
def imageClash (a b : ImageRow) : Prop :=
  a.video_job_id = b.video_job_id ∧ a.order_index = b.order_index ∧
    a.is_selected = true ∧ b.is_selected = true

/-- The per-position single-selection invariant for image rows. -/
def imageSingleSelection (table : List ImageRow) : Prop :=
  List.Pairwise (fun a b => ¬ imageClash a b) table

/-- Primary-key uniqueness of audio rows. -/
def audioUniqueIds (table : List AudioTrackRow) : Prop :=
  List.Pairwise (fun a b => a.id ≠ b.id) table

/-- Primary-key uniqueness of image rows. -/
def imageUniqueIds (table : List ImageRow) : Prop :=
  List.Pairwise (fun a b => a.id ≠ b.id) table

/-- The audio-track load of `_step_4_render_video` (lines 256-261): all rows
of the job, ordered by `order_index` — no filter on `is_selected` or
`is_alternative`. -/
def step4_load_audio (table : List AudioTrackRow) (jobId : ℕ) : List AudioTrackRow :=
  List.insertionSort (fun a b => a.order_index ≤ b.order_index)
    (table.filter (fun t => t.video_job_id = jobId))

/-- The image load of `_step_4_render_video` (lines 267-272). -/
def step4_load_images (table : List ImageRow) (jobId : ℕ) : List ImageRow :=
  List.insertionSort (fun a b => a.order_index ≤ b.order_index)
    (table.filter (fun t => t.video_job_id = jobId))

/-- The load-and-validate phase of `_step_4_render_video`: the loaded lists
must have exactly 20 entries each, and on success exactly those lists (every
row of the job, selected or not) are handed to the renderer. -/
def step4_render (audioTable : List AudioTrackRow) (imageTable : List ImageRow)
    (jobId : ℕ) : Except String (List AudioTrackRow × List ImageRow) :=
  let tracks := step4_load_audio audioTable jobId
  if tracks.length ≠ 20 then
    Except.error "Expected 20 audio tracks"
  else
    let vis := step4_load_images imageTable jobId
    if vis.length ≠ 20 then
      Except.error "Expected 20 visuals"
    else
      Except.ok (tracks, vis)

/-! ## Claim theorems -/

/-- Concrete input of the spec's duration scenario: 4 tracks of 30 s. -/
def c1Tracks : List AudioTrackIn :=
  [{ file_path := "t1.mp3", duration_seconds := 30, order_index := 1 },
   { file_path := "t2.mp3", duration_seconds := 30, order_index := 2 },
   { file_path := "t3.mp3", duration_seconds := 30, order_index := 3 },
   { file_path := "t4.mp3", duration_seconds := 30, order_index := 4 }]

/-- The 4 paired visuals of the duration scenario. -/
def c1Visuals : List VisualIn :=
  [{ file_path := "v1.png", order_index := 1 }, { file_path := "v2.png", order_index := 2 },
   { file_path := "v3.png", order_index := 3 }, { file_path := "v4.png", order_index := 4 }]

/-- C1: `_create_video_with_visuals` subtracts the crossfade overlap twice —
once per boundary inside the timing loop and once more in the
`total_duration` line — so a successful `render_video` over 4 clips of 30 s
with a 2 s crossfade reports `duration_seconds = 108`, while the claim's
formula `Σ durations − crossfade×(N−1)` gives `114` (which is the length of
the crossfaded audio stream the mux is bounded to by `-shortest`). -/
theorem C1_reported_duration_is_108_not_114 :
    (render_video defaultRenderer c1Tracks c1Visuals "out.mp4" 2 true true []).result =
      Except.ok { output_path := "out.mp4", duration_seconds := 108,
                  resolution := "1920x1080" } ∧
    ((30 : ℚ) + 30 + 30 + 30) - 2 * (4 - 1) = 114 ∧
    totalDurationOf [30, 30, 30, 30] 2 = 108 ∧
    (108 : ℚ) ≠ 114 := by
  refine ⟨?_, by norm_num, ?_, by norm_num⟩
  · simp only [render_video, c1Tracks, c1Visuals, sortTracks, List.insertionSort,
      List.orderedInsert, totalDurationOf, finalCursorGo, List.length_cons,
      List.length_nil, List.map_cons, List.map_nil]
    norm_num
  · simp only [totalDurationOf, finalCursorGo, List.length_cons, List.length_nil]
    norm_num

/-- C9: with exactly one audio track and one visual the audio command is the
direct single-track transcode — it carries no `-filter_complex` crossfade
graph — and the reported `duration_seconds` equals that clip's duration, for
every `crossfade_duration`. -/
theorem C9_single_track_duration_no_crossfade (r : FFmpegRenderer)
    (p v outp : String) (d cf : ℚ) (oi vi : ℕ) (times : List ℚ) :
    (render_video r [{ file_path := p, duration_seconds := d, order_index := oi }]
        [{ file_path := v, order_index := vi }] outp cf true true times).result =
      Except.ok { output_path := outp, duration_seconds := d, resolution := "1920x1080" } ∧
    concatAudioCmd [{ file_path := p, duration_seconds := d, order_index := oi }] cf =
      ["ffmpeg", "-y", "-i", p, "-c:a", "pcm_s16le", tempAudioPath] := by
  refine ⟨?_, rfl⟩
  simp only [render_video, sortTracks, List.insertionSort, List.orderedInsert,
    totalDurationOf, finalCursorGo, List.length_cons, List.length_nil,
    List.map_cons, List.map_nil]
  norm_num

/-- C7: with mismatched list lengths, or with two empty lists, `render_video`
raises its precondition `ValueError` before performing any filesystem or
subprocess work: the effect trace is empty and the call returns an error. -/
theorem C7_precondition_error_no_fs_work (r : FFmpegRenderer)
    (audio_tracks : List AudioTrackIn) (visuals : List VisualIn)
    (outp : String) (cf : ℚ) (aOk mOk : Bool) (times : List ℚ)
    (h : audio_tracks.length ≠ visuals.length ∨ (audio_tracks = [] ∧ visuals = [])) :
    (render_video r audio_tracks visuals outp cf aOk mOk times).events = [] ∧
    (render_video r audio_tracks visuals outp cf aOk mOk times).progress = [] ∧
    ∃ msg, (render_video r audio_tracks visuals outp cf aOk mOk times).result =
      Except.error msg := by
  rcases h with h | ⟨ha, hv⟩
  · simp only [render_video, if_pos h]
    exact ⟨trivial, trivial, _, rfl⟩
  · subst ha hv
    simp only [render_video]
    norm_num

/-- Witness for C7: an empty track list against one visual is rejected with no
filesystem work. -/
theorem C7_witness :
    (([] : List AudioTrackIn).length ≠
        [({ file_path := "v.png", order_index := 1 } : VisualIn)].length ∨
      (([] : List AudioTrackIn) = [] ∧
        [({ file_path := "v.png", order_index := 1 } : VisualIn)] = [])) ∧
    ((render_video defaultRenderer [] [{ file_path := "v.png", order_index := 1 }]
        "out.mp4" 2 true true []).events = [] ∧
     (render_video defaultRenderer [] [{ file_path := "v.png", order_index := 1 }]
        "out.mp4" 2 true true []).progress = [] ∧
     ∃ msg, (render_video defaultRenderer [] [{ file_path := "v.png", order_index := 1 }]
        "out.mp4" 2 true true []).result = Except.error msg) :=
  ⟨Or.inl (by decide),
   C7_precondition_error_no_fs_work defaultRenderer []
     [{ file_path := "v.png", order_index := 1 }] "out.mp4" 2 true true []
     (Or.inl (by decide))⟩

/-- C10 counterexample: when the mux process exits non-zero, `render_video`
has no try/finally around the temp-audio unlink (lines 141-143 run only after
`_create_video_with_visuals` returns), so the concat description file is
removed but the temporary intermediate audio file is not. -/
theorem C10_counterexample_temp_audio_leak_on_failure :
    (FsEvent.unlink tempConcatPath) ∈
      (render_video defaultRenderer
        [{ file_path := "t1.mp3", duration_seconds := 30, order_index := 1 }]
        [{ file_path := "v1.png", order_index := 1 }] "out.mp4" 2 true false []).events ∧
    (FsEvent.unlink tempAudioPath) ∉
      (render_video defaultRenderer
        [{ file_path := "t1.mp3", duration_seconds := 30, order_index := 1 }]
        [{ file_path := "v1.png", order_index := 1 }] "out.mp4" 2 true false []).events ∧
    (render_video defaultRenderer
        [{ file_path := "t1.mp3", duration_seconds := 30, order_index := 1 }]
        [{ file_path := "v1.png", order_index := 1 }] "out.mp4" 2 true false []).result =
      Except.error "FFmpeg rendering failed" := by
  refine ⟨?_, ?_, rfl⟩
  · simp [render_video, sortTracks, sortVisuals, List.insertionSort]
  · simp [render_video, sortTracks, sortVisuals, List.insertionSort,
      tempAudioPath, tempConcatPath, concatAudioCmd]

/-- C10 amended: for every call passing the preconditions, on the success path
both the temporary audio file and the concat description file are removed
before returning, but on the mux-failure path only the concat description
file (removed in the `finally` block) is — the temporary audio file is leaked
because the propagating exception skips the unlink in `render_video`. -/
theorem C10_cleanup_success_only_for_temp_audio (r : FFmpegRenderer)
    (audio_tracks : List AudioTrackIn) (visuals : List VisualIn)
    (outp : String) (cf : ℚ) (muxOk : Bool) (times : List ℚ)
    (hlen : audio_tracks.length = visuals.length) (hpos : 1 ≤ audio_tracks.length) :
    (muxOk = true →
      (FsEvent.unlink tempConcatPath) ∈
        (render_video r audio_tracks visuals outp cf true muxOk times).events ∧
      (FsEvent.unlink tempAudioPath) ∈
        (render_video r audio_tracks visuals outp cf true muxOk times).events) ∧
    (muxOk = false →
      (FsEvent.unlink tempConcatPath) ∈
        (render_video r audio_tracks visuals outp cf true muxOk times).events ∧
      (FsEvent.unlink tempAudioPath) ∉
        (render_video r audio_tracks visuals outp cf true muxOk times).events) := by
  have h1 : ¬ audio_tracks.length ≠ visuals.length := by simp [hlen]
  have h2 : ¬ audio_tracks.length < 1 := by omega
  constructor
  · rintro rfl
    simp only [render_video, if_neg h1, if_neg h2]
    norm_num
  · rintro rfl
    simp only [render_video, if_neg h1, if_neg h2]
    norm_num
    simp [tempAudioPath, tempConcatPath]

/-- Witness for the amended C10 at a concrete single-track input: on success
both temp files are unlinked; on mux failure only the concat file is. -/
theorem C10_witness :
    (([{ file_path := "t1.mp3", duration_seconds := 30,
         order_index := 1 }] : List AudioTrackIn).length =
       ([{ file_path := "v1.png", order_index := 1 }] : List VisualIn).length) ∧
    ((FsEvent.unlink tempConcatPath) ∈
        (render_video defaultRenderer
          [{ file_path := "t1.mp3", duration_seconds := 30, order_index := 1 }]
          [{ file_path := "v1.png", order_index := 1 }] "out.mp4" 2 true true []).events ∧
      (FsEvent.unlink tempAudioPath) ∈
        (render_video defaultRenderer
          [{ file_path := "t1.mp3", duration_seconds := 30, order_index := 1 }]
          [{ file_path := "v1.png", order_index := 1 }] "out.mp4" 2 true true []).events) :=
  ⟨by decide,
   (C10_cleanup_success_only_for_temp_audio defaultRenderer
     [{ file_path := "t1.mp3", duration_seconds := 30, order_index := 1 }]
     [{ file_path := "v1.png", order_index := 1 }] "out.mp4" 2 true []
     (by decide) (by decide)).1 rfl⟩

/-- C3 counterexample: a job failing with "Connection timeout" during the
audio-generation stage (status `generating_music` when the step raised) is
classified transient, but `_schedule_retry` resets it to `PLANNED` — the
initial stage — not to the stage that failed, so the next
`execute_pipeline` invocation starts at step 1 (prompts), not step 2. -/
theorem C3_counterexample_reset_to_initial_stage :
    should_retry_job
      (pipeline_fail { status := VideoJobStatus.generating_music, error_message := none }
        "Connection timeout") = true ∧
    (schedule_retry
      (pipeline_fail { status := VideoJobStatus.generating_music, error_message := none }
        "Connection timeout")).status ≠ VideoJobStatus.generating_music ∧
    (schedule_retry
      (pipeline_fail { status := VideoJobStatus.generating_music, error_message := none }
        "Connection timeout")).status = VideoJobStatus.planned ∧
    firstStepFor (schedule_retry
      (pipeline_fail { status := VideoJobStatus.generating_music, error_message := none }
        "Connection timeout")).status = some 1 := by
  decide

/-- C3 amended: for a transiently-failed job the retry path always resets the
status to the initial `planned` stage and clears the error message, so the
next poll cycle re-runs the pipeline from the prompt stage (step 1) — the
stage that was executing when the failure occurred is not preserved. -/
theorem C3_retry_resets_to_planned (j : Job) (msg : String) :
    (schedule_retry (pipeline_fail j msg)).status = VideoJobStatus.planned ∧
    (schedule_retry (pipeline_fail j msg)).error_message = none ∧
    firstStepFor (schedule_retry (pipeline_fail j msg)).status = some 1 := by
  exact ⟨rfl, rfl, rfl⟩

/-- C4 counterexample: the worker's poll query filters on
`status == PLANNED` only, so a job sitting in another non-terminal
ready-to-advance state (here `generating_music`) is never picked up; and one
pickup of a planned job runs `execute_pipeline`, whose chained `if` blocks
execute all five stage handlers to completion in a single invocation — not
exactly one stage transition. -/
theorem C4_counterexample_planned_only_full_pipeline :
    process_pending_query
      [{ id := 1, created_at := 0, status := VideoJobStatus.generating_music }] = [] ∧
    firstStepFor VideoJobStatus.generating_music = some 2 ∧
    execute_pipeline_run VideoJobStatus.planned = (VideoJobStatus.completed, 5) := by
  decide

/-- C4 amended: each poll cycle picks up exactly the jobs whose status is
`planned`, ordered by creation time ascending, and each picked-up job is run
through `execute_pipeline`, which executes every remaining stage (five
handlers from `planned` to `completed`) in that single invocation. -/
theorem C4_worker_picks_planned_oldest_first (jobs : List DBJob) (j : DBJob) :
    (j ∈ process_pending_query jobs ↔ j ∈ jobs ∧ j.status = VideoJobStatus.planned) ∧
    List.Sorted (fun a b : DBJob => a.created_at ≤ b.created_at)
      (process_pending_query jobs) ∧
    execute_pipeline_run VideoJobStatus.planned = (VideoJobStatus.completed, 5) := by
  refine ⟨?_, ?_, by decide⟩
  · unfold process_pending_query
    rw [List.Perm.mem_iff (List.perm_insertionSort _ _)]
    simp [List.mem_filter]
  · unfold process_pending_query
    haveI : IsTotal DBJob (fun a b => a.created_at ≤ b.created_at) :=
      ⟨fun a b => Nat.le_total a.created_at b.created_at⟩
    haveI : IsTrans DBJob (fun a b => a.created_at ≤ b.created_at) :=
      ⟨fun _ _ _ hab hbc => Nat.le_trans hab hbc⟩
    exact List.sorted_insertionSort _ _

/-- Against a persistently transiently-failing provider, every cycle performs
another retry reset: the simulated job state is always back at `planned` and
the retry count equals the number of cycles. -/
lemma retrySim_timeout_fixed_point (n : ℕ) :
    retrySim "Connection timeout" n =
      ({ status := VideoJobStatus.planned, error_message := none }, n) := by
  induction n with
  | zero => rfl
  | succ k ih =>
    have hcycle :
        retry_cycle "Connection timeout"
          { status := VideoJobStatus.planned, error_message := none } =
        ({ status := VideoJobStatus.planned, error_message := none }, true) := by decide
    simp [retrySim, ih, hcycle]

/-- C5: `_should_retry_job` never consults the configured `max_retries`
(`self.max_retries` is stored in `__init__` but unused by the retry
decision), so a job that keeps failing with a transient error is reset on
every cycle: after `n` failing cycles `n` retries have been performed, for
every `n` — in particular more than the default bound of 3 — contradicting
the worker's own documentation of `max_retries` as "maximum retry attempts
per job". -/
theorem C5_retries_unbounded_max_retries_unused :
    (∀ n : ℕ, retries_after "Connection timeout" n = n) ∧
    worker_default_max_retries = 3 ∧
    worker_default_max_retries <
      retries_after "Connection timeout" (worker_default_max_retries + 1) := by
  have h : ∀ n : ℕ, retries_after "Connection timeout" n = n := by
    intro n
    unfold retries_after
    rw [retrySim_timeout_fixed_point]
  exact ⟨h, rfl, by rw [h]; decide⟩

/-- A job's audio_tracks table: 20 selected originals at positions 1..20 plus
one unselected alternative generation at position 1 (as created by the
regenerate endpoint). -/
def c2AudioTable : List AudioTrackRow :=
  (List.range 20).map (fun i =>
    { id := i + 1, video_job_id := 1, order_index := i + 1,
      is_selected := true, is_alternative := false })
  ++ [{ id := 100, video_job_id := 1, order_index := 1,
        is_selected := false, is_alternative := true }]

/-- The matching images table: exactly 20 selected originals. -/
def c2ImageTable : List ImageRow :=
  (List.range 20).map (fun i =>
    { id := i + 1, video_job_id := 1, order_index := i + 1,
      is_selected := true, is_alternative := false })

/-- C2 counterexample: `_step_4_render_video` queries all of the job's rows
with no `is_selected` filter, so with one alternative present the load
returns 21 rows — including the unselected one — and the stage raises
"Expected 20 audio tracks" instead of rendering the selected versions. -/
theorem C2_counterexample_alternatives_not_filtered :
    (step4_load_audio c2AudioTable 1).length = 21 ∧
    ((step4_load_audio c2AudioTable 1).filter
      (fun t => t.is_selected = false)).length = 1 ∧
    step4_render c2AudioTable c2ImageTable 1 =
      Except.error "Expected 20 audio tracks" := by
  refine ⟨by decide, by decide, rfl⟩

/-- C2 amended: the render step loads every audio and image row of the job —
selected or not — ordered by `order_index`, requires exactly 20 of each, and
passes exactly those loaded lists to the renderer; selection is not
consulted, so the step only succeeds when no alternatives exist. -/
theorem C2_render_loads_all_rows_sorted (audioTable : List AudioTrackRow)
    (imageTable : List ImageRow) (jobId : ℕ)
    (la : List AudioTrackRow) (lv : List ImageRow)
    (h : step4_render audioTable imageTable jobId = Except.ok (la, lv)) :
    la = step4_load_audio audioTable jobId ∧
    lv = step4_load_images imageTable jobId ∧
    la.length = 20 ∧ lv.length = 20 ∧
    la.Perm (audioTable.filter (fun t => t.video_job_id = jobId)) ∧
    List.Sorted (fun a b : AudioTrackRow => a.order_index ≤ b.order_index) la ∧
    lv.Perm (imageTable.filter (fun t => t.video_job_id = jobId)) ∧
    List.Sorted (fun a b : ImageRow => a.order_index ≤ b.order_index) lv := by
  haveI : IsTotal AudioTrackRow (fun a b => a.order_index ≤ b.order_index) :=
    ⟨fun a b => Nat.le_total a.order_index b.order_index⟩
  haveI : IsTrans AudioTrackRow (fun a b => a.order_index ≤ b.order_index) :=
    ⟨fun _ _ _ hab hbc => Nat.le_trans hab hbc⟩
  haveI : IsTotal ImageRow (fun a b => a.order_index ≤ b.order_index) :=
    ⟨fun a b => Nat.le_total a.order_index b.order_index⟩
  haveI : IsTrans ImageRow (fun a b => a.order_index ≤ b.order_index) :=
    ⟨fun _ _ _ hab hbc => Nat.le_trans hab hbc⟩
  simp only [step4_render] at h
  split_ifs at h with h1 h2
  simp only [Except.ok.injEq, Prod.mk.injEq] at h
  obtain ⟨hla, hlv⟩ := h
  subst hla hlv
  refine ⟨rfl, rfl, by omega, by omega, ?_, ?_, ?_, ?_⟩
  · exact List.perm_insertionSort _ _
  · exact List.sorted_insertionSort _ _
  · exact List.perm_insertionSort _ _
  · exact List.sorted_insertionSort _ _

/-- A well-formed job table for the witness: exactly 20 rows, no alternatives. -/
def c2wAudioTable : List AudioTrackRow :=
  (List.range 20).map (fun i =>
    { id := i + 1, video_job_id := 1, order_index := i + 1,
      is_selected := true, is_alternative := false })

/-- The matching 20-row images table for the witness. -/
def c2wImageTable : List ImageRow :=
  (List.range 20).map (fun i =>
    { id := i + 1, video_job_id := 1, order_index := i + 1,
      is_selected := true, is_alternative := false })

/-- Witness for the amended C2 on a concrete 20-row job. -/
theorem C2_witness :
    step4_render c2wAudioTable c2wImageTable 1 =
      Except.ok (step4_load_audio c2wAudioTable 1, step4_load_images c2wImageTable 1) ∧
    (step4_load_audio c2wAudioTable 1 = step4_load_audio c2wAudioTable 1 ∧
     step4_load_images c2wImageTable 1 = step4_load_images c2wImageTable 1 ∧
     (step4_load_audio c2wAudioTable 1).length = 20 ∧
     (step4_load_images c2wImageTable 1).length = 20 ∧
     (step4_load_audio c2wAudioTable 1).Perm
       (c2wAudioTable.filter (fun t => t.video_job_id = 1)) ∧
     List.Sorted (fun a b : AudioTrackRow => a.order_index ≤ b.order_index)
       (step4_load_audio c2wAudioTable 1) ∧
     (step4_load_images c2wImageTable 1).Perm
       (c2wImageTable.filter (fun t => t.video_job_id = 1)) ∧
     List.Sorted (fun a b : ImageRow => a.order_index ≤ b.order_index)
       (step4_load_images c2wImageTable 1)) :=
  ⟨rfl, C2_render_loads_all_rows_sorted c2wAudioTable c2wImageTable 1 _ _ rfl⟩

/-- The map `applySelection` never changes the job id of a row. -/
lemma applySelection_job (target t : AudioTrackRow) :
    (applySelection target t).video_job_id = t.video_job_id := by
  unfold applySelection; split_ifs <;> rfl

/-- The map `applySelection` never changes the position of a row. -/
lemma applySelection_pos (target t : AudioTrackRow) :
    (applySelection target t).order_index = t.order_index := by
  unfold applySelection; split_ifs <;> rfl

/-- A row selected after `applySelection` is either the target row itself at
the target's position, or a row away from the target's position that was
already selected. -/
lemma applySelection_sel (target t : AudioTrackRow)
    (h : (applySelection target t).is_selected = true) :
    (t.video_job_id = target.video_job_id ∧ t.order_index = target.order_index ∧
      t.id = target.id) ∨
    (¬ (t.video_job_id = target.video_job_id ∧ t.order_index = target.order_index) ∧
      t.is_selected = true) := by
  unfold applySelection at h
  split_ifs at h with h1 h2
  · exact Or.inl ⟨h1.1, h1.2, h2⟩
  · exact Or.inr ⟨h1, h⟩

/-- Pairwise step: two distinct-id rows that do not clash still do not clash
after `applySelection`. -/
lemma applySelection_no_clash (target a b : AudioTrackRow)
    (hid : a.id ≠ b.id) (hcl : ¬ audioClash a b) :
    ¬ audioClash (applySelection target a) (applySelection target b) := by
  intro hc
  obtain ⟨hj, hp, hsa, hsb⟩ := hc
  rw [applySelection_job, applySelection_job] at hj
  rw [applySelection_pos, applySelection_pos] at hp
  rcases applySelection_sel target a hsa with ⟨haj, hap, hai⟩ | ⟨hna, hsa0⟩
  · rcases applySelection_sel target b hsb with ⟨_, _, hbi⟩ | ⟨hnb, _⟩
    · exact hid (hai.trans hbi.symm)
    · exact hnb ⟨hj.symm.trans haj, hp.symm.trans hap⟩
  · rcases applySelection_sel target b hsb with ⟨hbj, hbp, _⟩ | ⟨_, hsb0⟩
    · exact hna ⟨hj.trans hbj, hp.trans hbp⟩
    · exact hcl ⟨hj, hp, hsa0, hsb0⟩

/-- The operation `select_audio_track` preserves the audio single-selection invariant. -/
lemma select_audio_track_preserves (tid : ℕ) (table out : List AudioTrackRow)
    (hids : audioUniqueIds table) (hinv : audioSingleSelection table)
    (hsel : select_audio_track tid table = some out) :
    audioSingleSelection out := by
  unfold select_audio_track at hsel
  cases hfind : table.find? (fun t => t.id == tid) with
  | none => rw [hfind] at hsel; cases hsel
  | some target =>
    rw [hfind] at hsel
    obtain rfl : table.map (applySelection target) = out := by
      injection hsel
    exact (List.Pairwise.and hids hinv).map (applySelection target)
      (fun a b hab => applySelection_no_clash target a b hab.1 hab.2)

/-- The map `applyImageSelection` never changes the job id of a row. -/
lemma applyImageSelection_job (target t : ImageRow) :
    (applyImageSelection target t).video_job_id = t.video_job_id := by
  unfold applyImageSelection; split_ifs <;> rfl

/-- The map `applyImageSelection` never changes the position of a row. -/
lemma applyImageSelection_pos (target t : ImageRow) :
    (applyImageSelection target t).order_index = t.order_index := by
  unfold applyImageSelection; split_ifs <;> rfl

/-- Selected-afterwards characterisation for image rows. -/
lemma applyImageSelection_sel (target t : ImageRow)
    (h : (applyImageSelection target t).is_selected = true) :
    (t.video_job_id = target.video_job_id ∧ t.order_index = target.order_index ∧
      t.id = target.id) ∨
    (¬ (t.video_job_id = target.video_job_id ∧ t.order_index = target.order_index) ∧
      t.is_selected = true) := by
  unfold applyImageSelection at h
  split_ifs at h with h1 h2
  · exact Or.inl ⟨h1.1, h1.2, h2⟩
  · exact Or.inr ⟨h1, h⟩

/-- Pairwise step for image rows. -/
lemma applyImageSelection_no_clash (target a b : ImageRow)
    (hid : a.id ≠ b.id) (hcl : ¬ imageClash a b) :
    ¬ imageClash (applyImageSelection target a) (applyImageSelection target b) := by
  intro hc
  obtain ⟨hj, hp, hsa, hsb⟩ := hc
  rw [applyImageSelection_job, applyImageSelection_job] at hj
  rw [applyImageSelection_pos, applyImageSelection_pos] at hp
  rcases applyImageSelection_sel target a hsa with ⟨haj, hap, hai⟩ | ⟨hna, hsa0⟩
  · rcases applyImageSelection_sel target b hsb with ⟨_, _, hbi⟩ | ⟨hnb, _⟩
    · exact hid (hai.trans hbi.symm)
    · exact hnb ⟨hj.symm.trans haj, hp.symm.trans hap⟩
  · rcases applyImageSelection_sel target b hsb with ⟨hbj, hbp, _⟩ | ⟨_, hsb0⟩
    · exact hna ⟨hj.trans hbj, hp.trans hbp⟩
    · exact hcl ⟨hj, hp, hsa0, hsb0⟩

/-- The operation `select_image` preserves the image single-selection invariant. -/
lemma select_image_preserves (iid : ℕ) (table out : List ImageRow)
    (hids : imageUniqueIds table) (hinv : imageSingleSelection table)
    (hsel : select_image iid table = some out) :
    imageSingleSelection out := by
  unfold select_image at hsel
  cases hfind : table.find? (fun t => t.id == iid) with
  | none => rw [hfind] at hsel; cases hsel
  | some target =>
    rw [hfind] at hsel
    obtain rfl : table.map (applyImageSelection target) = out := by
      injection hsel
    exact (List.Pairwise.and hids hinv).map (applyImageSelection target)
      (fun a b hab => applyImageSelection_no_clash target a b hab.1 hab.2)

/-- C8: on tables with unique primary keys, the select endpoints preserve the
per-job-per-position single-selection invariant: selecting a track (image)
deselects every other row at the same job+position, so after the operation at
most one audio row and at most one image row per job+position is selected. -/
theorem C8_select_preserves_single_selection
    (atid : ℕ) (atable aout : List AudioTrackRow)
    (itid : ℕ) (itable iout : List ImageRow)
    (haids : audioUniqueIds atable) (hainv : audioSingleSelection atable)
    (hasel : select_audio_track atid atable = some aout)
    (hiids : imageUniqueIds itable) (hiinv : imageSingleSelection itable)
    (hisel : select_image itid itable = some iout) :
    audioSingleSelection aout ∧ imageSingleSelection iout :=
  ⟨select_audio_track_preserves atid atable aout haids hainv hasel,
   select_image_preserves itid itable iout hiids hiinv hisel⟩

/-- Witness audio table: an original and an unselected alternative at the
same job+position. -/
def c8AudioTable : List AudioTrackRow :=
  [{ id := 1, video_job_id := 1, order_index := 1,
     is_selected := true, is_alternative := false },
   { id := 2, video_job_id := 1, order_index := 1,
     is_selected := false, is_alternative := true }]

/-- The audio table after selecting the alternative (id 2). -/
def c8AudioOut : List AudioTrackRow :=
  [{ id := 1, video_job_id := 1, order_index := 1,
     is_selected := false, is_alternative := false },
   { id := 2, video_job_id := 1, order_index := 1,
     is_selected := true, is_alternative := true }]

/-- Witness image table. -/
def c8ImageTable : List ImageRow :=
  [{ id := 1, video_job_id := 1, order_index := 1,
     is_selected := true, is_alternative := false },
   { id := 2, video_job_id := 1, order_index := 1,
     is_selected := false, is_alternative := true }]

/-- The image table after selecting the alternative (id 2). -/
def c8ImageOut : List ImageRow :=
  [{ id := 1, video_job_id := 1, order_index := 1,
     is_selected := false, is_alternative := false },
   { id := 2, video_job_id := 1, order_index := 1,
     is_selected := true, is_alternative := true }]

/-- Witness for C8: selecting the alternative at position 1 deselects the
original and keeps the invariant on both tables. -/
theorem C8_witness :
    (audioUniqueIds c8AudioTable ∧ audioSingleSelection c8AudioTable ∧
     select_audio_track 2 c8AudioTable = some c8AudioOut ∧
     imageUniqueIds c8ImageTable ∧ imageSingleSelection c8ImageTable ∧
     select_image 2 c8ImageTable = some c8ImageOut) ∧
    (audioSingleSelection c8AudioOut ∧ imageSingleSelection c8ImageOut) :=
  ⟨⟨by unfold audioUniqueIds; decide, by unfold audioSingleSelection audioClash; decide,
    by decide, by unfold imageUniqueIds; decide,
    by unfold imageSingleSelection imageClash; decide, by decide⟩,
   C8_select_preserves_single_selection 2 c8AudioTable c8AudioOut 2 c8ImageTable c8ImageOut
     (by unfold audioUniqueIds; decide) (by unfold audioSingleSelection audioClash; decide)
     (by decide) (by unfold imageUniqueIds; decide)
     (by unfold imageSingleSelection imageClash; decide) (by decide)⟩

/-- A mux-phase progress value never exceeds 1 (the `min(progress, 1.0)`). -/
lemma muxProgressValue_le_one (total t : ℚ) : muxProgressValue total t ≤ 1 := by
  unfold muxProgressValue pyMin
  split_ifs with h
  · exact h
  · exact le_refl 1

/-- With a nonnegative parsed time and positive computed total duration, a
mux-phase progress value is at least 0.3. -/
lemma muxProgressValue_ge (total t : ℚ) (ht : 0 ≤ t) (htot : 0 < total) :
    (3 : ℚ) / 10 ≤ muxProgressValue total t := by
  have hdiv : (0 : ℚ) ≤ t / total := div_nonneg ht htot.le
  have hinner : (3 : ℚ) / 10 ≤ (3 : ℚ) / 10 + t / total * ((7 : ℚ) / 10) := by
    nlinarith
  unfold muxProgressValue pyMin
  split_ifs with h
  · exact hinner
  · norm_num

/-- Mux-phase progress is monotone in the parsed time. -/
lemma muxProgressValue_mono (total t1 t2 : ℚ) (htot : 0 < total) (h : t1 ≤ t2) :
    muxProgressValue total t1 ≤ muxProgressValue total t2 := by
  have hinner : (3 : ℚ) / 10 + t1 / total * ((7 : ℚ) / 10) ≤
      (3 : ℚ) / 10 + t2 / total * ((7 : ℚ) / 10) := by
    have : t1 / total ≤ t2 / total := div_le_div_of_nonneg_right h htot.le
    nlinarith
  unfold muxProgressValue pyMin
  split_ifs with h1 h2
  · exact hinner
  · exact h1
  · exact le_trans (not_le.1 h1).le hinner
  · exact le_refl 1

/-- C6: on a successful render with monotone nonnegative parsed `time=`
values and a positive computed total duration, the emitted progress sequence
is `0.1, 0.3,` the mux-phase values, then `1.0`; it is monotonically
non-decreasing, every mux-phase value lies in `[0.3, 1]`, and the final value
is exactly `1`. -/
theorem C6_progress_monotone_bounded_final_one (r : FFmpegRenderer)
    (audio_tracks : List AudioTrackIn) (visuals : List VisualIn)
    (outp : String) (cf : ℚ) (times : List ℚ)
    (hlen : audio_tracks.length = visuals.length) (hpos : 1 ≤ audio_tracks.length)
    (htimes : List.Chain' (fun a b : ℚ => a ≤ b) times)
    (hnn : ∀ t ∈ times, 0 ≤ t)
    (htot : 0 < totalDurationOf
      ((sortTracks audio_tracks).map (fun t => t.duration_seconds)) cf) :
    (render_video r audio_tracks visuals outp cf true true times).progress =
      ([1 / 10, 3 / 10] ++ times.map (muxProgressValue (totalDurationOf
        ((sortTracks audio_tracks).map (fun t => t.duration_seconds)) cf))) ++ [1] ∧
    List.Chain' (fun a b : ℚ => a ≤ b)
      ((render_video r audio_tracks visuals outp cf true true times).progress) ∧
    (∀ p ∈ times.map (muxProgressValue (totalDurationOf
        ((sortTracks audio_tracks).map (fun t => t.duration_seconds)) cf)),
      (3 : ℚ) / 10 ≤ p ∧ p ≤ 1) ∧
    (render_video r audio_tracks visuals outp cf true true times).progress.getLast? =
      some 1 := by
  have h1 : ¬ audio_tracks.length ≠ visuals.length := by simp [hlen]
  have h2 : ¬ audio_tracks.length < 1 := by omega
  have hprog : (render_video r audio_tracks visuals outp cf true true times).progress =
      ([1 / 10, 3 / 10] ++ times.map (muxProgressValue (totalDurationOf
        ((sortTracks audio_tracks).map (fun t => t.duration_seconds)) cf))) ++ [1] := by
    simp only [render_video, if_neg h1, if_neg h2]
    norm_num
  have hbound : ∀ p ∈ times.map (muxProgressValue (totalDurationOf
      ((sortTracks audio_tracks).map (fun t => t.duration_seconds)) cf)),
      (3 : ℚ) / 10 ≤ p ∧ p ≤ 1 := by
    intro p hp
    obtain ⟨t, ht, rfl⟩ := List.mem_map.1 hp
    exact ⟨muxProgressValue_ge _ t (hnn t ht) htot, muxProgressValue_le_one _ t⟩
  refine ⟨hprog, ?_, hbound, ?_⟩
  · rw [hprog, List.append_assoc]
    refine List.chain'_append.2 ⟨?_, ?_, ?_⟩
    · rw [List.chain'_pair]; norm_num
    · refine List.chain'_append.2 ⟨?_, List.chain'_singleton 1, ?_⟩
      · rw [List.chain'_map]
        exact htimes.imp (fun a b hab => muxProgressValue_mono _ a b htot hab)
      · intro x hx y hy
        obtain rfl : (1 : ℚ) = y := by simpa using hy
        exact (hbound x (List.mem_of_mem_getLast? hx)).2
    · intro x hx y hy
      obtain rfl : (3 : ℚ) / 10 = x := by simpa using hx
      cases times with
      | nil =>
        obtain rfl : (1 : ℚ) = y := by simpa using hy
        norm_num
      | cons t ts =>
        rw [List.map_cons, List.cons_append, List.head?_cons, Option.mem_def] at hy
        injection hy with hy
        subst hy
        exact muxProgressValue_ge _ t (hnn t (List.mem_cons_self t ts)) htot
  · rw [hprog]
    exact List.getLast?_concat _

/-- Witness for C6 at a single 30 s track, crossfade 2, parsed times 5 then
10: the total duration is positive and the emitted progress sequence is
non-decreasing with final value 1. -/
theorem C6_witness :
    (0 : ℚ) < totalDurationOf ((sortTracks
      [{ file_path := "t1.mp3", duration_seconds := 30, order_index := 1 }]).map
        (fun t => t.duration_seconds)) 2 ∧
    List.Chain' (fun a b : ℚ => a ≤ b)
      ((render_video defaultRenderer
        [{ file_path := "t1.mp3", duration_seconds := 30, order_index := 1 }]
        [{ file_path := "v1.png", order_index := 1 }]
        "out.mp4" 2 true true [5, 10]).progress) ∧
    (render_video defaultRenderer
        [{ file_path := "t1.mp3", duration_seconds := 30, order_index := 1 }]
        [{ file_path := "v1.png", order_index := 1 }]
        "out.mp4" 2 true true [5, 10]).progress.getLast? = some 1 := by
  have htot : (0 : ℚ) < totalDurationOf ((sortTracks
      [{ file_path := "t1.mp3", duration_seconds := 30, order_index := 1 }]).map
        (fun t => t.duration_seconds)) 2 := by
    simp only [sortTracks, List.insertionSort, totalDurationOf, finalCursorGo,
      List.map_cons, List.map_nil, List.length_cons, List.length_nil]
    norm_num
  have happ := C6_progress_monotone_bounded_final_one defaultRenderer
    [{ file_path := "t1.mp3", duration_seconds := 30, order_index := 1 }]
    [{ file_path := "v1.png", order_index := 1 }]
    "out.mp4" 2 [5, 10] (by decide) (by decide)
    (by rw [List.chain'_pair]; norm_num)
    (by intro t ht; simp only [List.mem_cons, List.not_mem_nil, or_false] at ht
        rcases ht with rfl | rfl <;> norm_num)
    htot
  exact ⟨htot, happ.2.1, happ.2.2.2⟩
